import Mathlib

/-!
Shallow embedding of the object-storage management module (`cloud/amazon/s3.py`).

The module drives an idempotent reconciliation loop over a remote
bucket/object store.  The remote store (boto) and the local filesystem
are collaborators; they are modelled as explicit first-order state:

* `FS` — the local filesystem: a finite map from paths to entries, an
  entry being a regular file with its byte content or a directory.
* `S3` — the remote store: a list of buckets, each with a list of keys;
  a key carries its name, optional version id, its etag (the full etag
  string, quotes included, as `key.etag` returns it) and its content.
* `Event` — the trace of mutating store calls an invocation performs
  (download, upload, delete-object, delete-bucket, create-bucket); one
  event per collaborator call.
* `Terminal` — the single terminal outcome of an invocation:
  `exitJ` models `module.exit_json(...)`, `failJ` models
  `module.fail_json(...)`, and `pyError` models an uncaught Python
  exception escaping the module (a traceback, not a clean outcome).

MD5 itself is a collaborator (`hashlib`); what the module controls, and
what the claims are about, is WHICH bytes are streamed through the
digest and how digest strings are compared.  The digest is therefore
modelled as an ideal collision-free hex encoding (`md5_hexdigest`) of
the absorbed byte stream (`md5StreamedBytes`); equality of modelled
digests coincides with equality of absorbed streams, and the absorbed
stream is translated faithfully from the source.

`module.exit_json` and `module.fail_json` terminate the invocation, so
the control flow of `main()` is translated as a decision tree in which
each leaf produces the `Terminal`, together with the final filesystem
and the event trace.  Integer parameters that the source keeps
non-negative (`retries`, `expiry`) are `Nat`.
-/

set_option autoImplicit false

namespace S3Module

/-! ## Local filesystem model -/

inductive FSEntry where
  | file (content : List Nat)
  | dir
deriving DecidableEq, Repr

structure FS where
  entries : List (String × FSEntry)
deriving DecidableEq, Repr

def FS.lookup (fs : FS) (p : String) : Option FSEntry :=
  (fs.entries.find? (fun e => e.1 == p)).map (fun e => e.2)

/-- `os.path.exists`: true for files and directories alike (source lines
241-245, function `path_check`). -/
def FS.path_check (fs : FS) (p : String) : Bool :=
  (fs.lookup p).isSome

/-- `open(p, 'rb').read(...)` succeeds only on a regular file; opening a
directory or missing path raises `IOError`, modelled as `none`. -/
def FS.readFile (fs : FS) (p : String) : Option (List Nat) :=
  match fs.lookup p with
  | some (FSEntry.file c) => some c
  | _ => none

/-- `key.get_contents_to_filename(dest)` on success replaces the content
at `dest`. -/
def FS.setFile (fs : FS) (p : String) (c : List Nat) : FS :=
  { entries := (p, FSEntry.file c) :: fs.entries }

/-! ## Remote store model -/

structure S3Key where
  name : String
  version : Option String
  etag : List Char
  content : List Nat
deriving DecidableEq, Repr

structure S3Bucket where
  name : String
  keys : List S3Key
deriving DecidableEq, Repr

structure S3 where
  buckets : List S3Bucket
deriving DecidableEq, Repr

/-- `s3.lookup(bucket)`: the bucket object, or `None`. -/
def S3.lookup (s3 : S3) (b : String) : Option S3Bucket :=
  s3.buckets.find? (fun bk => bk.name == b)

/-- `bucket.get_key(obj, version_id=version)`.  A `None` key name never
matches.  With no version id the current key of that name is returned;
with a version id only a key carrying that version matches (boto returns
`None`, after the module maps the 400 response, when the version does
not exist). -/
def S3Bucket.get_key (bk : S3Bucket) (obj : Option String) (version : Option String) : Option S3Key :=
  match obj with
  | none => none
  | some o => bk.keys.find? (fun kk => kk.name == o && (version.isNone || kk.version == version))

/-! ## Events and terminal outcomes -/

inductive Event where
  | downloadObject (bucket obj dest : String)
  | uploadObject (bucket obj src : String)
  | deleteObject (bucket obj : String)
  | deleteBucket (bucket : String)
  | createBucket (bucket : String)
deriving DecidableEq, Repr

def isDeleteObjectEvent : Event → Bool
  | Event.deleteObject _ _ => true
  | _ => false

def isDeleteBucketEvent : Event → Bool
  | Event.deleteBucket _ => true
  | _ => false

def isUploadEvent : Event → Bool
  | Event.uploadObject _ _ _ => true
  | _ => false

/-- The single terminal result of an invocation.  `exitJ` carries the
optional `msg`, `changed`, `url`, `expiry` and `failed` fields that the
various `module.exit_json` call sites pass; `failJ` carries `msg` and
the optional `changed` field (two `fail_json` call sites pass one);
`pyError` models an uncaught Python exception (NameError, IOError,
AttributeError, ...) escaping `main`. -/
inductive Terminal where
  | exitJ (msg : Option String) (changed : Option Bool) (url : Option String) (expiry : Option Nat) (failed : Option Bool)
  | failJ (msg : String) (changed : Option Bool)
  | pyError (msg : String)
deriving DecidableEq, Repr

def terminalMsg : Terminal → Option String
  | Terminal.exitJ m _ _ _ _ => m
  | Terminal.failJ m _ => some m
  | Terminal.pyError m => some m

/-- Line 593: the `module.exit_json(failed=False)` every mode falls
through to when its block produces no terminal of its own. -/
def finalExit : Terminal :=
  Terminal.exitJ none none none none (some false)

/-! ## Digest model (source lines 315-320) -/

/-- The byte stream actually fed to the digest by `get_md5_digest`:
the source performs a SINGLE `f.read(1024 ** 2)` — which returns at most
the first 1048576 bytes of the file — and then iterates over the bytes
of that one chunk, calling `md5.update` on each byte in order.  The
absorbed stream is therefore the prefix of the file of length at most
`1024 ^ 2`, not in general the whole file. -/
def md5StreamedBytes (content : List Nat) : List Nat :=
  content.take (1024 ^ 2)

/-- Ideal model of the hex digest of a byte stream: an injective byte to
hex-pair encoding standing in for MD5 (see the header comment; digest
equality coincides with absorbed-stream equality). -/
def md5_hexdigest : List Nat → List Char
  | [] => []
  | b :: rest => Nat.digitChar (b / 16 % 16) :: Nat.digitChar (b % 16) :: md5_hexdigest rest

/-- `get_md5_digest(local_file)` for a local file with the given byte
content: the digest of the absorbed stream. -/
def get_md5_digest (content : List Nat) : List Char :=
  md5_hexdigest (md5StreamedBytes content)

/-- Line 179: `md5_remote = key_check.etag[1:-1]` — the etag with its
surrounding quotes stripped. -/
def S3Key.md5_remote (k : S3Key) : List Char :=
  (k.etag.drop 1).dropLast

def multipart_msg : String :=
  "Files uploaded with multipart of s3 are not supported with checksum, unable to compute checksum."

/-! ## Store-facing helper functions of the module -/

/-- Lines 185-193, `bucket_check`: truthiness of `s3.lookup(bucket)`. -/
def bucket_check (s3 : S3) (bucket : String) : Bool :=
  (s3.lookup bucket).isSome

/-- Lines 160-172, `key_check`: truthiness of `bucket.get_key(...)`.
(The source would raise `AttributeError` if the bucket were absent, but
every call site runs after a successful `bucket_check`; the absent
branch is modelled as `false`.) -/
def key_check (s3 : S3) (bucket : String) (obj : Option String) (version : Option String) : Bool :=
  match s3.lookup bucket with
  | none => false
  | some bk => (bk.get_key obj version).isSome

/-- Lines 174-183, `keysum`: `None` when the key is absent; a hard
`fail_json` (the multipart message) when the quoted-stripped etag
contains the multipart marker; the stripped etag otherwise. -/
def keysum (s3 : S3) (bucket : String) (obj : Option String) (version : Option String) : Except Terminal (Option (List Char)) :=
  match s3.lookup bucket with
  | none => Except.error (Terminal.pyError "AttributeError: NoneType object has no attribute get_key")
  | some bk =>
    match bk.get_key obj version with
    | none => Except.ok none
    | some k =>
      if (S3Key.md5_remote k).contains '-' then Except.error (Terminal.failJ multipart_msg none)
      else Except.ok (some (S3Key.md5_remote k))

/-- Lines 195-203, `create_bucket`: creates the bucket and returns
`True`. -/
def create_bucket (s3 : S3) (bucket : String) : S3 × Bool × List Event :=
  ({ buckets := s3.buckets ++ [{ name := bucket, keys := [] }] }, true, [Event.createBucket bucket])

/-- Lines 205-213, `delete_bucket`: lists the bucket contents, issues
the key deletions (`bucket.delete_keys([...])`, one object deletion per
listed key, in listing order), then the single `bucket.delete()`, and
returns `True`. -/
def delete_bucket (s3 : S3) (bucket : String) : Except Terminal (Bool × List Event) :=
  match s3.lookup bucket with
  | none => Except.error (Terminal.pyError "AttributeError: NoneType object has no attribute list")
  | some bk => Except.ok (true, bk.keys.map (fun kk => Event.deleteObject bucket kk.name) ++ [Event.deleteBucket bucket])

/-- Lines 232-239, `upload_file_check`.  DEAD CODE in the source: it is
never called from `main`.  Moreover both of its first branches evaluate
the bare expression `file_exists is True` / `file_exists is False` with
`file_exists` unbound, so any call raises `NameError` before the
`isdir` test is reached; the function is translated as that error. -/
def upload_file_check (_fs : FS) (_src : String) : Terminal :=
  Terminal.pyError "NameError: name file_exists is not defined"

/-- Collaborator URL signing (`key.generate_url(expiry)`): a concrete
injective encoding of bucket, key and expiry; no claim constrains its
exact shape. -/
def generate_url (bucket obj : String) (expiry : Nat) : String :=
  "https://" ++ bucket ++ ".s3.amazonaws.com/" ++ obj ++ "?Expires=" ++ toString expiry

/-- Lines 248-260, `upload_s3file`: looks the bucket up, creates the
key, streams the local file up (reading `src` — an `IOError` on a
directory or missing file is not caught by the `storage_copy_error`
handler), signs a URL and exits `PUT operation complete, changed=True`.
Metadata and encryption flags are pass-through collaborator attributes
with no control-flow effect and are not tracked. -/
def upload_s3file (s3 : S3) (fs : FS) (bucket : String) (obj : Option String) (src : String) (expiry : Nat) : Terminal × List Event :=
  match s3.lookup bucket with
  | none => (Terminal.pyError "AttributeError: NoneType object has no attribute new_key", [])
  | some _ =>
    match obj with
    | none => (Terminal.pyError "TypeError: object key name is None", [])
    | some o =>
      match fs.readFile src with
      | none => (Terminal.pyError "IOError: could not open src for reading", [])
      | some _ =>
        (Terminal.exitJ (some "PUT operation complete") (some true) (some (generate_url bucket o expiry)) none none,
         [Event.uploadObject bucket o src])

/-- Lines 289-296, `get_download_url`: looks bucket and key up, signs a
URL, exits `Download url:` with the caller-chosen `changed` flag. -/
def get_download_url (s3 : S3) (bucket : String) (obj : Option String) (expiry : Nat) (changed : Bool) : Terminal × List Event :=
  match s3.lookup bucket with
  | none => (Terminal.pyError "AttributeError: NoneType object has no attribute lookup", [])
  | some bk =>
    match bk.get_key obj none with
    | none => (Terminal.pyError "AttributeError: NoneType object has no attribute generate_url", [])
    | some k =>
      (Terminal.exitJ (some "Download url:") (some changed) (some (generate_url bucket k.name expiry)) (some expiry) none, [])

/-! ## The bounded-retry download (lines 262-278) -/

/-- The outcome of one `key.get_contents_to_filename` attempt, as the
collaborator reports it: success, a transient `SSLError`, or a
non-transient `storage_copy_error`. -/
inductive DlResult where
  | ok
  | sslError (msg : String)
  | storageCopyError (msg : String)
deriving DecidableEq, Repr

/-- The `for x in range(0, retries + 1)` loop of `download_s3file`.
`attempt i` is the collaborator outcome of the i-th transfer attempt;
each iteration performs exactly one store download call (one event).
`none` models the loop running out of iterations with no terminal
produced (control then falls through past the loop). -/
def downloadLoop (content : List Nat) (bucket objname dest : String) (retries : Nat) (attempt : Nat → DlResult) : Nat → Nat → FS → List Event → Option Terminal × FS × List Event
  | _, 0, fs, evs => (none, fs, evs)
  | x, fuel + 1, fs, evs =>
    match attempt x with
    | DlResult.ok =>
      (some (Terminal.exitJ (some "GET operation complete") (some true) none none none),
       fs.setFile dest content, evs ++ [Event.downloadObject bucket objname dest])
    | DlResult.storageCopyError e =>
      (some (Terminal.failJ e none), fs, evs ++ [Event.downloadObject bucket objname dest])
    | DlResult.sslError e =>
      if retries ≤ x then
        (some (Terminal.failJ ("s3 download failed; " ++ e) none), fs, evs ++ [Event.downloadObject bucket objname dest])
      else
        downloadLoop content bucket objname dest retries attempt (x + 1) fuel fs (evs ++ [Event.downloadObject bucket objname dest])

/-- Lines 262-278, `download_s3file`: bucket and key are looked up, then
the retry loop runs with `retries + 1` iterations starting at `x = 0`. -/
def download_s3file (s3 : S3) (fs : FS) (bucket : String) (obj : Option String) (dest : String) (retries : Nat) (version : Option String) (attempt : Nat → DlResult) : Option Terminal × FS × List Event :=
  match s3.lookup bucket with
  | none => (some (Terminal.pyError "AttributeError: NoneType object has no attribute get_key"), fs, [])
  | some bk =>
    match bk.get_key obj version with
    | none => (some (Terminal.pyError "AttributeError: NoneType object has no attribute get_contents_to_filename"), fs, [])
    | some k => downloadLoop k.content bucket k.name dest retries attempt 0 (retries + 1) fs []

/-! ## Parameter plumbing of `main` (lines 323-386) -/

/-- `os.path.expanduser`: home-directory expansion is environment glue
with no bearing on any claim; modelled as the identity on paths. -/
def expanduser (s : String) : String := s

/-- Python `%s` formatting of an optional string. -/
def optStr : Option String → String
  | some s => s
  | none => "None"

/-- Python truthiness of an optional string parameter. -/
def pyTruthyOpt : Option String → Bool
  | some s => s != ""
  | none => false

/-- Lines 352 and 381-382: `obj` is the raw parameter, re-bound to its
`expanduser` form only when truthy. -/
def procObj : Option String → Option String
  | some s => if s = "" then some s else some (expanduser s)
  | none => none

/-- Lines 348-349: the local variable `dest` is bound (to the
`expanduser` form) ONLY when the parameter is truthy; otherwise it
stays unbound (`none`), and any later use raises `NameError`. -/
def destVar : Option String → Option String
  | some s => if s = "" then none else some (expanduser s)
  | none => none

/-- Modelled from the spec: `module.boolean`, the orchestration
runtime's boolean coercion used by the overwrite-policy normalization.
It lives in the excluded `module_utils` layer, not in this repository
file; the spec (§9) says boolean-like values are normalized to
`always`/`never` at the boundary.  Modelled as the conventional truthy
strings; every claim instantiates the policy with one of the three
canonical values, which this normalization fixes. -/
def module_boolean (s : String) : Bool :=
  s ∈ ["yes", "on", "1", "true", "True", "y", "Y", "YES"]

/-- Lines 359-369 (the check appears twice, verbatim): a value outside
the three named policies is coerced to `always` or `never`. -/
def normalize_overwrite (s : String) : String :=
  if s = "always" ∨ s = "never" ∨ s = "different" then s
  else if module_boolean s then "always" else "never"

/-! ## GET mode (lines 418-463 plus the fall-through to line 593) -/

/-- The shape of the code following the comparison phase: lines 457-463
(the trailing `sum_matches`/`overwrite` checks) and the final
`exit_json(failed=False)`.  Abstracted as a parameter of
`main_get_gen` so that unreachability of this code can be stated as
insensitivity of the result to it. -/
def TrailingK : Type :=
  S3 → String → Option String → Option String → String → Nat → (Nat → DlResult) → String → Option Bool → Bool → FS → List Event → Terminal × FS × List Event

/-- Lines 457-463 and 593, translated faithfully: reading `sum_matches`
when no comparison branch assigned it (`none`) is a `NameError`; the
first check re-exits on `sum_matches and overwrite == never`; the second
re-downloads on `sum_matches and pathrtn and overwrite == always`;
otherwise control reaches `module.exit_json(failed=False)`. -/
def get_trailing : TrailingK :=
  fun s3 bucket obj version dest retries attempt overwrite sum_matches pathrtn fs evs =>
    match sum_matches with
    | none => (Terminal.pyError "NameError: name sum_matches is not defined", fs, evs)
    | some sm =>
      if sm && (overwrite == "never") then
        (Terminal.exitJ (some "Local and remote object are identical, ignoring. Use overwrite parameter to force.") (some false) none none none, fs, evs)
      else if sm && pathrtn && (overwrite == "always") then
        match download_s3file s3 fs bucket obj dest retries version attempt with
        | (some t, fs1, evs1) => (t, fs1, evs ++ evs1)
        | (none, fs1, evs1) => (finalExit, fs1, evs ++ evs1)
      else (finalExit, fs, evs)

/-- Lines 418-463: the GET mode block, generic in the trailing code.
`attempt` is the collaborator behaviour of the download attempts. -/
def main_get_gen (trailing : TrailingK) (s3 : S3) (fs : FS) (bucket : String) (obj0 version : Option String) (overwrite0 : String) (retries : Nat) (dest0 : Option String) (attempt : Nat → DlResult) : Terminal × FS × List Event :=
  let overwrite := normalize_overwrite (normalize_overwrite overwrite0)
  let obj := procObj obj0
  if bucket_check s3 bucket = false then
    (Terminal.failJ "Target bucket cannot be found" none, fs, [])
  else if key_check s3 bucket obj version = false then
    match version with
    | some v => (Terminal.failJ ("Key " ++ optStr obj ++ " with version id " ++ v ++ " does not exist.") none, fs, [])
    | none => (Terminal.failJ ("Key " ++ optStr obj ++ " does not exist.") none, fs, [])
  else
    match destVar dest0 with
    | none => (Terminal.pyError "NameError: name dest is not defined", fs, [])
    | some dest =>
      let pathrtn := fs.path_check dest
      if pathrtn = false then
        match download_s3file s3 fs bucket obj dest retries version attempt with
        | (some t, fs1, evs) => (t, fs1, evs)
        | (none, fs1, evs) => trailing s3 bucket obj version dest retries attempt overwrite none pathrtn fs1 evs
      else
        match keysum s3 bucket obj version with
        | Except.error t => (t, fs, [])
        | Except.ok md5_remote =>
          match fs.readFile dest with
          | none => (Terminal.pyError "IOError: could not open dest for reading", fs, [])
          | some content =>
            let md5_local := get_md5_digest content
            let sum_matches_now : Bool := match md5_remote with | some r => md5_local == r | none => false
            if sum_matches_now then
              if overwrite = "always" then
                match download_s3file s3 fs bucket obj dest retries version attempt with
                | (some t, fs1, evs) => (t, fs1, evs)
                | (none, fs1, evs) => trailing s3 bucket obj version dest retries attempt overwrite (some true) pathrtn fs1 evs
              else
                (Terminal.exitJ (some "Local and remote object are identical, ignoring. Use overwrite=always parameter to force.") (some false) none none none, fs, [])
            else
              if overwrite = "always" ∨ overwrite = "different" then
                match download_s3file s3 fs bucket obj dest retries version attempt with
                | (some t, fs1, evs) => (t, fs1, evs)
                | (none, fs1, evs) => trailing s3 bucket obj version dest retries attempt overwrite (some false) pathrtn fs1 evs
              else
                (Terminal.exitJ (some "WARNING: Checksums do not match. Use overwrite parameter to force download.") none none none none, fs, [])

/-- The GET mode block as the source has it (trailing code included). -/
def main_get (s3 : S3) (fs : FS) (bucket : String) (obj0 version : Option String) (overwrite0 : String) (retries : Nat) (dest0 : Option String) (attempt : Nat → DlResult) : Terminal × FS × List Event :=
  main_get_gen get_trailing s3 fs bucket obj0 version overwrite0 retries dest0 attempt

/-! ## PUT mode (lines 466-507) -/

/-- Lines 466-507: the PUT mode block.  `src` is the source path
parameter.  Note the branch structure: when the bucket does not exist,
`keyrtn` is never assigned, and line 483 short-circuits on
`bucketrtn is True` before reading it; line 501 then creates the bucket
and uploads; when bucket and key both exist the comparison block always
terminates, so lines 501 and 506 are skipped. -/
def main_put (s3 : S3) (fs : FS) (bucket : String) (obj0 : Option String) (overwrite0 : String) (src : String) (expiry : Nat) : Terminal × List Event :=
  let overwrite := normalize_overwrite (normalize_overwrite overwrite0)
  let obj := procObj obj0
  if fs.path_check src = false then
    (Terminal.failJ "Local object for PUT does not exist" none, [])
  else
    if bucket_check s3 bucket then
      if key_check s3 bucket obj none then
        match keysum s3 bucket obj none with
        | Except.error t => (t, [])
        | Except.ok md5_remote =>
          match fs.readFile src with
          | none => (Terminal.pyError "IOError: could not open src for reading", [])
          | some content =>
            let md5_local := get_md5_digest content
            let sum_matches_now : Bool := match md5_remote with | some r => md5_local == r | none => false
            if sum_matches_now then
              if overwrite = "always" then upload_s3file s3 fs bucket obj src expiry
              else get_download_url s3 bucket obj expiry false
            else
              if overwrite = "always" ∨ overwrite = "different" then upload_s3file s3 fs bucket obj src expiry
              else (Terminal.exitJ (some "WARNING: Checksums do not match. Use overwrite parameter to force upload.") none none none none, [])
      else
        upload_s3file s3 fs bucket obj src expiry
    else
      match create_bucket s3 bucket with
      | (s3c, _, evs1) =>
        match upload_s3file s3c fs bucket obj src expiry with
        | (t, evs2) => (t, evs1 ++ evs2)

/-! ## DELETE mode (lines 526-536) -/

/-- Lines 526-536: the bucket-delete mode block. -/
def main_delete (s3 : S3) (bucket : String) : Terminal × List Event :=
  if bucket != "" then
    if bucket_check s3 bucket then
      match delete_bucket s3 bucket with
      | Except.error t => (t, [])
      | Except.ok (deletertn, evs) =>
        if deletertn then
          (Terminal.exitJ (some ("Bucket " ++ bucket ++ " and all keys have been deleted.")) (some true) none none none, evs)
        else (finalExit, evs)
    else (Terminal.failJ "Bucket does not exist." (some false), [])
  else (Terminal.failJ "Bucket parameter is required." none, [])

/-! ## GETURL mode (lines 564-576) -/

/-- Lines 564-576: the geturl mode block. -/
def main_geturl (s3 : S3) (bucket : String) (obj0 : Option String) (expiry : Nat) : Terminal × List Event :=
  let obj := procObj obj0
  if bucket != "" && pyTruthyOpt obj then
    if bucket_check s3 bucket = false then
      (Terminal.failJ ("Bucket " ++ bucket ++ " does not exist.") none, [])
    else if key_check s3 bucket obj none then
      get_download_url s3 bucket obj expiry true
    else
      (Terminal.failJ ("Key " ++ optStr obj ++ " does not exist.") none, [])
  else (Terminal.failJ "Bucket and Object parameters must be set" none, [])

/-! ## Helper lemmas -/

theorem FS.path_check_of_readFile {fs : FS} {p : String} {c : List Nat} (h : fs.readFile p = some c) :
    fs.path_check p = true := by
  unfold FS.readFile at h
  unfold FS.path_check
  cases hl : fs.lookup p with
  | none => rw [hl] at h; simp at h
  | some e => simp [hl]

theorem md5_hexdigest_length (l : List Nat) : (md5_hexdigest l).length = 2 * l.length := by
  induction l with
  | nil => simp [md5_hexdigest]
  | cons b rest ih => simp [md5_hexdigest, ih]; omega

theorem downloadLoop_isSome (content : List Nat) (bucket objname dest : String) (retries : Nat) (attempt : Nat → DlResult) :
    ∀ fuel x fs evs, x + fuel = retries + 1 → x ≤ retries →
      (downloadLoop content bucket objname dest retries attempt x fuel fs evs).1.isSome = true := by
  intro fuel
  induction fuel with
  | zero => intro x fs evs h hx; omega
  | succ fuel ih =>
    intro x fs evs h hx
    simp only [downloadLoop]
    cases hA : attempt x with
    | ok => simp
    | storageCopyError e => simp
    | sslError e =>
      by_cases hr : retries ≤ x
      · simp [hr]
      · simp only [if_neg hr]
        exact ih (x + 1) fs (evs ++ [Event.downloadObject bucket objname dest]) (by omega) (by omega)

theorem downloadLoop_ext (content : List Nat) (bucket objname dest : String) (retries : Nat) (a1 a2 : Nat → DlResult) :
    ∀ fuel x fs evs, (∀ i, x ≤ i → i < x + fuel → a1 i = a2 i) →
      downloadLoop content bucket objname dest retries a1 x fuel fs evs
        = downloadLoop content bucket objname dest retries a2 x fuel fs evs := by
  intro fuel
  induction fuel with
  | zero => intro x fs evs _; rfl
  | succ fuel ih =>
    intro x fs evs hAg
    have hx : a1 x = a2 x := hAg x (Nat.le_refl x) (by omega)
    simp only [downloadLoop, hx]
    cases hA : a2 x with
    | ok => rfl
    | storageCopyError e => rfl
    | sslError e =>
      by_cases hr : retries ≤ x
      · simp [hr]
      · simp only [if_neg hr]
        exact ih (x + 1) fs (evs ++ [Event.downloadObject bucket objname dest])
          (fun i h1 h2 => hAg i (by omega) (by omega))

theorem downloadLoop_events_length (content : List Nat) (bucket objname dest : String) (retries : Nat) (attempt : Nat → DlResult) :
    ∀ fuel x fs evs, ((downloadLoop content bucket objname dest retries attempt x fuel fs evs).2.2).length ≤ evs.length + fuel := by
  intro fuel
  induction fuel with
  | zero => intro x fs evs; simp [downloadLoop]
  | succ fuel ih =>
    intro x fs evs
    simp only [downloadLoop]
    cases hA : attempt x with
    | ok => simp
    | storageCopyError e => simp
    | sslError e =>
      by_cases hr : retries ≤ x
      · simp [hr]
      · simp only [if_neg hr]
        have := ih (x + 1) fs (evs ++ [Event.downloadObject bucket objname dest])
        simp at this
        omega

theorem downloadLoop_success (content : List Nat) (bucket objname dest : String) (retries : Nat) (attempt : Nat → DlResult) (k : Nat)
    (hk : k ≤ retries) (hssl : ∀ i, i < k → ∃ e, attempt i = DlResult.sslError e) (hok : attempt k = DlResult.ok) :
    ∀ fuel x fs evs, x ≤ k → k < x + fuel →
      downloadLoop content bucket objname dest retries attempt x fuel fs evs
        = (some (Terminal.exitJ (some "GET operation complete") (some true) none none none), fs.setFile dest content,
           evs ++ List.replicate (k + 1 - x) (Event.downloadObject bucket objname dest)) := by
  intro fuel
  induction fuel with
  | zero => intro x fs evs h1 h2; omega
  | succ fuel ih =>
    intro x fs evs h1 h2
    by_cases hxk : x = k
    · subst hxk
      simp only [downloadLoop, hok]
      have hone : x + 1 - x = 1 := by omega
      rw [hone]
      simp
    · obtain ⟨e, he⟩ := hssl x (by omega)
      have hr : ¬(retries ≤ x) := by omega
      simp only [downloadLoop, he, if_neg hr]
      rw [ih (x + 1) fs (evs ++ [Event.downloadObject bucket objname dest]) (by omega) (by omega)]
      have hrep : k + 1 - x = (k + 1 - (x + 1)) + 1 := by omega
      rw [hrep, List.replicate_succ]
      simp

theorem downloadLoop_allssl (content : List Nat) (bucket objname dest : String) (retries : Nat) (attempt : Nat → DlResult) (eN : String)
    (hssl : ∀ i, i < retries → ∃ e, attempt i = DlResult.sslError e)
    (hlast : attempt retries = DlResult.sslError eN) :
    ∀ fuel x fs evs, x + fuel = retries + 1 → x ≤ retries →
      downloadLoop content bucket objname dest retries attempt x fuel fs evs
        = (some (Terminal.failJ ("s3 download failed; " ++ eN) none), fs,
           evs ++ List.replicate (retries + 1 - x) (Event.downloadObject bucket objname dest)) := by
  intro fuel
  induction fuel with
  | zero => intro x fs evs h hx; omega
  | succ fuel ih =>
    intro x fs evs h hx
    by_cases hxr : x = retries
    · subst hxr
      simp only [downloadLoop, hlast, if_pos (Nat.le_refl x)]
      have hone : x + 1 - x = 1 := by omega
      rw [hone]
      simp
    · obtain ⟨e, he⟩ := hssl x (by omega)
      have hr : ¬(retries ≤ x) := by omega
      simp only [downloadLoop, he, if_neg hr]
      rw [ih (x + 1) fs (evs ++ [Event.downloadObject bucket objname dest]) (by omega) (by omega)]
      have hrep : retries + 1 - x = (retries + 1 - (x + 1)) + 1 := by omega
      rw [hrep, List.replicate_succ]
      simp

theorem downloadLoop_storage (content : List Nat) (bucket objname dest : String) (retries : Nat) (attempt : Nat → DlResult) (j : Nat) (e : String)
    (hj : j ≤ retries) (hssl : ∀ i, i < j → ∃ e2, attempt i = DlResult.sslError e2)
    (hst : attempt j = DlResult.storageCopyError e) :
    ∀ fuel x fs evs, x ≤ j → j < x + fuel →
      downloadLoop content bucket objname dest retries attempt x fuel fs evs
        = (some (Terminal.failJ e none), fs,
           evs ++ List.replicate (j + 1 - x) (Event.downloadObject bucket objname dest)) := by
  intro fuel
  induction fuel with
  | zero => intro x fs evs h1 h2; omega
  | succ fuel ih =>
    intro x fs evs h1 h2
    by_cases hxj : x = j
    · subst hxj
      simp only [downloadLoop, hst]
      have hone : x + 1 - x = 1 := by omega
      rw [hone]
      simp
    · obtain ⟨e2, he⟩ := hssl x (by omega)
      have hr : ¬(retries ≤ x) := by omega
      simp only [downloadLoop, he, if_neg hr]
      rw [ih (x + 1) fs (evs ++ [Event.downloadObject bucket objname dest]) (by omega) (by omega)]
      have hrep : j + 1 - x = (j + 1 - (x + 1)) + 1 := by omega
      rw [hrep, List.replicate_succ]
      simp

theorem download_s3file_isSome (s3 : S3) (fs : FS) (bucket : String) (obj : Option String) (dest : String) (retries : Nat) (version : Option String) (attempt : Nat → DlResult) :
    (download_s3file s3 fs bucket obj dest retries version attempt).1.isSome = true := by
  cases hb : s3.lookup bucket with
  | none => simp [download_s3file, hb]
  | some bk =>
    cases hk : bk.get_key obj version with
    | none => simp [download_s3file, hb, hk]
    | some k =>
      simp only [download_s3file, hb, hk]
      exact downloadLoop_isSome k.content bucket k.name dest retries attempt (retries + 1) 0 fs [] (by omega) (by omega)

/-! ## Claim theorems -/

/-- C1: the claim says `get_md5_digest` streams the ENTIRE file content
through the digest.  The code issues a single `f.read(1024 ** 2)` and
iterates over that one chunk, so on the 1048577-byte file below the
absorbed stream has length 1048576 — a proper prefix, not the complete
content — and the digest likewise covers only the prefix. -/
theorem C1_single_read_prefix_digest :
    (md5StreamedBytes (List.replicate (1024 ^ 2 + 1) 0)).length = 1024 ^ 2
    ∧ (List.replicate (1024 ^ 2 + 1) (0 : Nat)).length = 1024 ^ 2 + 1
    ∧ (get_md5_digest (List.replicate (1024 ^ 2 + 1) 0)).length = 2 * 1024 ^ 2
    ∧ (md5_hexdigest (List.replicate (1024 ^ 2 + 1) 0)).length = 2 * (1024 ^ 2 + 1) := by
  refine ⟨?_, ?_, ?_, ?_⟩
  · simp only [md5StreamedBytes, List.length_take, List.length_replicate]
    omega
  · simp only [List.length_replicate]
  · simp only [get_md5_digest, md5StreamedBytes]
    rw [md5_hexdigest_length]
    simp only [List.length_take, List.length_replicate]
    omega
  · rw [md5_hexdigest_length]
    simp only [List.length_replicate]

/-- C3: the download transfer is attempted at most `retries + 1` times
(the event trace has at most `retries + 1` download calls, and the
result depends only on the first `retries + 1` attempt outcomes); a run
whose first `kk` attempts fail transiently and whose attempt `kk`
(0-based, `kk ≤ retries`) succeeds exits with success; transient
failures on all `retries + 1` attempts surface the LAST transient error
as fatal; a non-transient `storage_copy_error` on the first
non-transient attempt is fatal immediately, with exactly that many
download calls made. -/
theorem C3_download_retry_budget (s3 : S3) (fs : FS) (bucket : String) (obj version : Option String) (dest : String) (retries : Nat) (attempt attempt2 : Nat → DlResult) (bk : S3Bucket) (k : S3Key)
    (hb : s3.lookup bucket = some bk) (hk : bk.get_key obj version = some k) :
    ((download_s3file s3 fs bucket obj dest retries version attempt).2.2).length ≤ retries + 1
    ∧ ((∀ i, i ≤ retries → attempt i = attempt2 i) →
        download_s3file s3 fs bucket obj dest retries version attempt
          = download_s3file s3 fs bucket obj dest retries version attempt2)
    ∧ (∀ kk, kk ≤ retries → (∀ i, i < kk → ∃ e, attempt i = DlResult.sslError e) → attempt kk = DlResult.ok →
        download_s3file s3 fs bucket obj dest retries version attempt
          = (some (Terminal.exitJ (some "GET operation complete") (some true) none none none), fs.setFile dest k.content,
             List.replicate (kk + 1) (Event.downloadObject bucket k.name dest)))
    ∧ (∀ e, (∀ i, i < retries → ∃ e2, attempt i = DlResult.sslError e2) → attempt retries = DlResult.sslError e →
        download_s3file s3 fs bucket obj dest retries version attempt
          = (some (Terminal.failJ ("s3 download failed; " ++ e) none), fs,
             List.replicate (retries + 1) (Event.downloadObject bucket k.name dest)))
    ∧ (∀ j e, j ≤ retries → (∀ i, i < j → ∃ e2, attempt i = DlResult.sslError e2) → attempt j = DlResult.storageCopyError e →
        download_s3file s3 fs bucket obj dest retries version attempt
          = (some (Terminal.failJ e none), fs,
             List.replicate (j + 1) (Event.downloadObject bucket k.name dest))) := by
  simp only [download_s3file, hb, hk]
  refine ⟨?_, ?_, ?_, ?_, ?_⟩
  · have h := downloadLoop_events_length k.content bucket k.name dest retries attempt (retries + 1) 0 fs []
    simpa using h
  · intro hag
    exact downloadLoop_ext k.content bucket k.name dest retries attempt attempt2 (retries + 1) 0 fs []
      (fun i h1 h2 => hag i (by omega))
  · intro kk h1 h2 h3
    have h := downloadLoop_success k.content bucket k.name dest retries attempt kk h1 h2 h3 (retries + 1) 0 fs [] (by omega) (by omega)
    simpa using h
  · intro e h1 h2
    have h := downloadLoop_allssl k.content bucket k.name dest retries attempt e h1 h2 (retries + 1) 0 fs [] (by omega) (by omega)
    simpa using h
  · intro j e h1 h2 h3
    have h := downloadLoop_storage k.content bucket k.name dest retries attempt j e h1 h2 h3 (retries + 1) 0 fs [] (by omega) (by omega)
    simpa using h

/-! ## Concrete fixtures for the witnesses -/

/-- A key whose stripped etag is empty: it matches the digest of an
empty local file and carries no multipart marker. -/
def wKey : S3Key := { name := "k", version := none, etag := ['"', '"'], content := [] }

def wBucket : S3Bucket := { name := "b", keys := [wKey] }

def wS3 : S3 := { buckets := [wBucket] }

/-- A filesystem with an empty file at `d`. -/
def wFS : FS := { entries := [("d", FSEntry.file [])] }

/-- Attempt behaviour: one transient failure, then success. -/
def wAtt : Nat → DlResult := fun i => if i = 0 then DlResult.sslError "timeout" else DlResult.ok

/-- Witness for C3: with a retry budget of 1, an attempt sequence that
fails transiently once and then succeeds produces the success exit after
exactly two download calls. -/
theorem C3_download_retry_budget_witness :
    download_s3file wS3 wFS "b" (some "k") "d" 1 none wAtt
      = (some (Terminal.exitJ (some "GET operation complete") (some true) none none none), wFS.setFile "d" [],
         List.replicate 2 (Event.downloadObject "b" "k" "d")) := by
  have h := (C3_download_retry_budget wS3 wFS "b" (some "k") none "d" 1 wAtt wAtt wBucket wKey rfl rfl).2.2.1
  exact h 1 (by decide) (fun i hi => ⟨"timeout", by
    have hi0 : i = 0 := by omega
    subst hi0
    rfl⟩) rfl

/-- C2: a remote object whose quoted-stripped etag carries the
multipart marker makes `keysum` fail the invocation with the multipart
message; in GET mode (destination existing) and in PUT mode (bucket and
key existing, comparison phase reached) the invocation terminates with
that hard error, with no transfer event, for every overwrite policy and
every local content. -/
theorem C2_multipart_unavailable_fails (s3 : S3) (fs : FS) (bucket : String) (obj0 version dest0 : Option String) (overwrite0 : String) (retries expiry : Nat) (attempt : Nat → DlResult) (src : String) (bk : S3Bucket)
    (hb : s3.lookup bucket = some bk) :
    (∀ k, bk.get_key (procObj obj0) version = some k → (S3Key.md5_remote k).contains '-' = true →
       keysum s3 bucket (procObj obj0) version = Except.error (Terminal.failJ multipart_msg none))
    ∧ (∀ k d, bk.get_key (procObj obj0) version = some k → (S3Key.md5_remote k).contains '-' = true →
         destVar dest0 = some d → fs.path_check d = true →
         main_get s3 fs bucket obj0 version overwrite0 retries dest0 attempt
           = (Terminal.failJ multipart_msg none, fs, []))
    ∧ (∀ k, bk.get_key (procObj obj0) none = some k → (S3Key.md5_remote k).contains '-' = true →
         fs.path_check src = true →
         main_put s3 fs bucket obj0 overwrite0 src expiry
           = (Terminal.failJ multipart_msg none, [])) := by
  refine ⟨?_, ?_, ?_⟩
  · intro k hk hm
    have hm2 : '-' ∈ S3Key.md5_remote k := by simpa using hm
    simp [keysum, hb, hk, hm2]
  · intro k d hk hm hd hp
    have hm2 : '-' ∈ S3Key.md5_remote k := by simpa using hm
    simp [main_get, main_get_gen, bucket_check, key_check, keysum, hb, hk, hm2, hd, hp]
  · intro k hk hm hp
    have hm2 : '-' ∈ S3Key.md5_remote k := by simpa using hm
    simp [main_put, bucket_check, key_check, keysum, hb, hk, hm2, hp]

/-- A key carrying a multipart-composite etag (a marker inside the
quotes). -/
def wKeyMp : S3Key := { name := "k", version := none, etag := ['"', 'a', '-', 'b', '"'], content := [7] }

def wBucketMp : S3Bucket := { name := "b", keys := [wKeyMp] }

def wS3Mp : S3 := { buckets := [wBucketMp] }

/-- Witness for C2: on the multipart-etag fixture, GET with an existing
destination fails hard with the multipart message and performs nothing. -/
theorem C2_multipart_unavailable_fails_witness :
    main_get wS3Mp wFS "b" (some "k") none "always" 0 (some "d") wAtt
      = (Terminal.failJ multipart_msg none, wFS, []) := by
  have h := (C2_multipart_unavailable_fails wS3Mp wFS "b" (some "k") none (some "d") "always" 0 600 wAtt "d" wBucketMp rfl).2.1
  exact h wKeyMp "d" rfl rfl rfl rfl

/-- C4 counterexample: bucket and key exist, fingerprints match, policy
is `never`; the claim says the invocation terminates reporting
"identical, ignoring", but the code terminates through
`get_download_url` with the message `Download url:` (changed=False). -/
theorem C4_match_policy_counterexample :
    main_put wS3 wFS "b" (some "k") "never" "d" 600
      = (Terminal.exitJ (some "Download url:") (some false) (some (generate_url "b" "k" 600)) (some 600) none, [])
    ∧ (terminalMsg (main_put wS3 wFS "b" (some "k") "never" "d" 600).1
        == some "Local and remote object are identical, ignoring. Use overwrite=always parameter to force.") = false := by
  refine ⟨rfl, rfl⟩

/-- C4 (amended): with bucket and key existing and fingerprints
matching, policy `always` performs the upload and exits
`PUT operation complete, changed=True`; policies `never` and
`different` perform no upload and terminate with changed=False through
the `Download url:` response (not an "identical, ignoring" message). -/
theorem C4_put_match_policy_matrix (s3 : S3) (fs : FS) (bucket : String) (obj0 : Option String) (src : String) (expiry : Nat) (o : String) (bk : S3Bucket) (k : S3Key) (c : List Nat)
    (hobj : procObj obj0 = some o)
    (hb : s3.lookup bucket = some bk)
    (hk : bk.get_key (some o) none = some k)
    (hmp : (S3Key.md5_remote k).contains '-' = false)
    (hrd : fs.readFile src = some c)
    (hmatch : (get_md5_digest c == S3Key.md5_remote k) = true) :
    main_put s3 fs bucket obj0 "always" src expiry
      = (Terminal.exitJ (some "PUT operation complete") (some true) (some (generate_url bucket o expiry)) none none,
         [Event.uploadObject bucket o src])
    ∧ main_put s3 fs bucket obj0 "never" src expiry
      = (Terminal.exitJ (some "Download url:") (some false) (some (generate_url bucket k.name expiry)) (some expiry) none, [])
    ∧ main_put s3 fs bucket obj0 "different" src expiry
      = (Terminal.exitJ (some "Download url:") (some false) (some (generate_url bucket k.name expiry)) (some expiry) none, []) := by
  have hp : fs.path_check src = true := FS.path_check_of_readFile hrd
  have hmp2 : '-' ∉ S3Key.md5_remote k := by simpa using hmp
  refine ⟨?_, ?_, ?_⟩ <;>
    simp [main_put, bucket_check, key_check, keysum, upload_s3file, get_download_url,
      normalize_overwrite, module_boolean, hobj, hb, hk, hmp2, hrd, hmatch, hp]

/-- Witness for C4 (amended): on the matching fixture, `always` uploads
and `never` stops with the URL response. -/
theorem C4_put_match_policy_matrix_witness :
    main_put wS3 wFS "b" (some "k") "always" "d" 600
      = (Terminal.exitJ (some "PUT operation complete") (some true) (some (generate_url "b" "k" 600)) none none,
         [Event.uploadObject "b" "k" "d"])
    ∧ main_put wS3 wFS "b" (some "k") "never" "d" 600
      = (Terminal.exitJ (some "Download url:") (some false) (some (generate_url "b" "k" 600)) (some 600) none, []) := by
  have h := C4_put_match_policy_matrix wS3 wFS "b" (some "k") "d" 600 "k" wBucket wKey [] rfl rfl rfl rfl rfl rfl
  exact ⟨h.1, h.2.1⟩

/-- A filesystem holding a directory at `sd` and a file at `d`. -/
def wFSdir : FS := { entries := [("sd", FSEntry.dir), ("d", FSEntry.file [])] }

/-- C5: the missing-source half of the claim holds (a clean fail with
"Local object for PUT does not exist"), but the directory half does
not: an existing directory as source passes `path_check`, the dead
`upload_file_check` (whose own body would raise NameError before its
isdir test) is never invoked, and the invocation dies with an uncaught
IOError at the digest step instead of failing fast with an
InvalidSource message. -/
theorem C5_put_source_checks :
    main_put wS3 wFSdir "b" (some "k") "always" "nope" 600
      = (Terminal.failJ "Local object for PUT does not exist" none, [])
    ∧ main_put wS3 wFSdir "b" (some "k") "always" "sd" 600
      = (Terminal.pyError "IOError: could not open src for reading", [])
    ∧ upload_file_check wFSdir "sd" = Terminal.pyError "NameError: name file_exists is not defined" := by
  refine ⟨rfl, rfl, rfl⟩

/-- C6: whenever GET reaches the fingerprint-comparison phase (bucket
and key exist, `dest` bound, destination path exists), every branch of
the phase terminates the invocation, so the result does not depend on
the trailing lines 457-463 at all — the trailing checks are unreachable
for every such input. -/
theorem C6_trailing_checks_unreachable (t1 t2 : TrailingK) (s3 : S3) (fs : FS) (bucket : String) (obj0 version dest0 : Option String) (overwrite0 : String) (retries : Nat) (attempt : Nat → DlResult) (bk : S3Bucket) (k : S3Key) (d : String)
    (hb : s3.lookup bucket = some bk)
    (hk : bk.get_key (procObj obj0) version = some k)
    (hd : destVar dest0 = some d)
    (hp : fs.path_check d = true) :
    main_get_gen t1 s3 fs bucket obj0 version overwrite0 retries dest0 attempt
      = main_get_gen t2 s3 fs bucket obj0 version overwrite0 retries dest0 attempt := by
  have hds := download_s3file_isSome s3 fs bucket (procObj obj0) d retries version attempt
  rcases hdl : download_s3file s3 fs bucket (procObj obj0) d retries version attempt with ⟨od, fs1, evs1⟩
  rw [hdl] at hds
  cases od with
  | none => simp at hds
  | some tA =>
    simp [main_get_gen, bucket_check, key_check, hb, hk, hd, hp, hdl]

/-- Trailing code that is recognizably not the source's. -/
def junkTrailing : TrailingK :=
  fun _ _ _ _ _ _ _ _ _ _ fs evs => (Terminal.pyError "unreachable trailing executed", fs, evs)

/-- Witness for C6: on a concrete comparison-phase input, replacing the
trailing code changes nothing. -/
theorem C6_trailing_checks_unreachable_witness :
    main_get_gen junkTrailing wS3 wFS "b" (some "k") none "never" 0 (some "d") wAtt
      = main_get_gen get_trailing wS3 wFS "b" (some "k") none "never" 0 (some "d") wAtt :=
  C6_trailing_checks_unreachable junkTrailing get_trailing wS3 wFS "b" (some "k") none (some "d") "never" 0 wAtt wBucket wKey "d" rfl rfl rfl rfl

/-- C7: GET with policy `never`, destination existing, fingerprints
mismatching: the invocation exits with the checksum warning, performs
no store download call, and returns the filesystem unchanged (the
destination file is byte-for-byte what it was). -/
theorem C7_never_mismatch_keeps_local (s3 : S3) (fs : FS) (bucket : String) (obj0 version dest0 : Option String) (retries : Nat) (attempt : Nat → DlResult) (bk : S3Bucket) (k : S3Key) (d : String) (c : List Nat)
    (hb : s3.lookup bucket = some bk)
    (hk : bk.get_key (procObj obj0) version = some k)
    (hd : destVar dest0 = some d)
    (hmp : (S3Key.md5_remote k).contains '-' = false)
    (hrd : fs.readFile d = some c)
    (hne : (get_md5_digest c == S3Key.md5_remote k) = false) :
    main_get s3 fs bucket obj0 version "never" retries dest0 attempt
      = (Terminal.exitJ (some "WARNING: Checksums do not match. Use overwrite parameter to force download.") none none none none, fs, [])
    ∧ (main_get s3 fs bucket obj0 version "never" retries dest0 attempt).2.1.readFile d = fs.readFile d
    ∧ (main_get s3 fs bucket obj0 version "never" retries dest0 attempt).2.2 = [] := by
  have hp : fs.path_check d = true := FS.path_check_of_readFile hrd
  have hmp2 : '-' ∉ S3Key.md5_remote k := by simpa using hmp
  have hmain : main_get s3 fs bucket obj0 version "never" retries dest0 attempt
      = (Terminal.exitJ (some "WARNING: Checksums do not match. Use overwrite parameter to force download.") none none none none, fs, []) := by
    simp [main_get, main_get_gen, bucket_check, key_check, keysum, normalize_overwrite, module_boolean,
      hb, hk, hd, hp, hrd, hmp2, hne]
  refine ⟨hmain, by rw [hmain], by rw [hmain]⟩

/-- A key whose stripped etag mismatches the digest of the empty local
file. -/
def wKeyX : S3Key := { name := "k", version := none, etag := ['"', 'x', '"'], content := [5] }

def wBucketX : S3Bucket := { name := "b", keys := [wKeyX] }

def wS3X : S3 := { buckets := [wBucketX] }

/-- Witness for C7: concrete mismatch under policy `never` exits with
the warning and an empty event trace, filesystem untouched. -/
theorem C7_never_mismatch_keeps_local_witness :
    main_get wS3X wFS "b" (some "k") none "never" 0 (some "d") wAtt
      = (Terminal.exitJ (some "WARNING: Checksums do not match. Use overwrite parameter to force download.") none none none none, wFS, []) := by
  have h := C7_never_mismatch_keeps_local wS3X wFS "b" (some "k") none (some "d") 0 wAtt wBucketX wKeyX "d" [] rfl rfl rfl rfl rfl rfl
  exact h.1

theorem filter_deleteObject_map (bucket : String) (ks : List S3Key) :
    (ks.map (fun kk => Event.deleteObject bucket kk.name)).filter isDeleteObjectEvent
      = ks.map (fun kk => Event.deleteObject bucket kk.name) := by
  induction ks with
  | nil => rfl
  | cons a l ih => simp [isDeleteObjectEvent, ih]

theorem filter_deleteBucket_map (bucket : String) (ks : List S3Key) :
    (ks.map (fun kk => Event.deleteObject bucket kk.name)).filter isDeleteBucketEvent = [] := by
  induction ks with
  | nil => rfl
  | cons a l ih => simp [isDeleteBucketEvent, ih]

/-- C8: bucket delete on an existing bucket first issues one
delete-object call per key of the bucket (in listing order) and only
then the single delete-bucket call, and exits with changed=True.  The
event trace is exactly the K object deletions followed by the bucket
deletion: it contains K delete-object events, a single delete-bucket
event, no delete-bucket among the first K events, and the delete-bucket
last. -/
theorem C8_delete_drains_before_bucket (s3 : S3) (bucket : String) (bk : S3Bucket)
    (hb : s3.lookup bucket = some bk) (hbn : (bucket != "") = true) :
    main_delete s3 bucket
      = (Terminal.exitJ (some ("Bucket " ++ bucket ++ " and all keys have been deleted.")) (some true) none none none,
         bk.keys.map (fun kk => Event.deleteObject bucket kk.name) ++ [Event.deleteBucket bucket])
    ∧ ((main_delete s3 bucket).2.filter isDeleteObjectEvent).length = bk.keys.length
    ∧ (main_delete s3 bucket).2.filter isDeleteBucketEvent = [Event.deleteBucket bucket]
    ∧ ((main_delete s3 bucket).2.take bk.keys.length).filter isDeleteBucketEvent = []
    ∧ (main_delete s3 bucket).2.getLast? = some (Event.deleteBucket bucket) := by
  have hmain : main_delete s3 bucket
      = (Terminal.exitJ (some ("Bucket " ++ bucket ++ " and all keys have been deleted.")) (some true) none none none,
         bk.keys.map (fun kk => Event.deleteObject bucket kk.name) ++ [Event.deleteBucket bucket]) := by
    simp [main_delete, bucket_check, delete_bucket, hb, hbn]
  refine ⟨hmain, ?_, ?_, ?_, ?_⟩
  · rw [hmain]
    simp [List.filter_append, filter_deleteObject_map, isDeleteObjectEvent]
  · rw [hmain]
    simp [List.filter_append, filter_deleteBucket_map, isDeleteBucketEvent]
  · rw [hmain]
    have hlen : bk.keys.length = (bk.keys.map (fun kk => Event.deleteObject bucket kk.name)).length := by
      simp
    rw [hlen, List.take_left, filter_deleteBucket_map]
  · rw [hmain]
    simp

def wKey1 : S3Key := { name := "k1", version := none, etag := ['"', 'a', '"'], content := [1] }

def wKey2 : S3Key := { name := "k2", version := none, etag := ['"', 'c', '"'], content := [2] }

def wBucket2 : S3Bucket := { name := "b", keys := [wKey1, wKey2] }

def wS32 : S3 := { buckets := [wBucket2] }

/-- Witness for C8: deleting a bucket with two keys issues the two
object deletions and then the bucket deletion, reporting changed=True. -/
theorem C8_delete_drains_before_bucket_witness :
    main_delete wS32 "b"
      = (Terminal.exitJ (some "Bucket b and all keys have been deleted.") (some true) none none none,
         [Event.deleteObject "b" "k1", Event.deleteObject "b" "k2", Event.deleteBucket "b"]) := by
  exact (C8_delete_drains_before_bucket wS32 "b" wBucket2 rfl rfl).1

/-- C9: geturl requires both bucket and object parameters (failing with
the MissingParameter message otherwise), existence-checks the bucket
and then the key (failing descriptively), and on success exits with the
URL, changed=True, and an EMPTY mutation-event trace — a pure read that
still reports a change. -/
theorem C9_geturl_checks_and_changed (s3 : S3) (bucket : String) (obj0 : Option String) (expiry : Nat) :
    ((bucket != "" && pyTruthyOpt (procObj obj0)) = false →
       main_geturl s3 bucket obj0 expiry = (Terminal.failJ "Bucket and Object parameters must be set" none, []))
    ∧ ((bucket != "" && pyTruthyOpt (procObj obj0)) = true → s3.lookup bucket = none →
       main_geturl s3 bucket obj0 expiry = (Terminal.failJ ("Bucket " ++ bucket ++ " does not exist.") none, []))
    ∧ (∀ bk, (bucket != "" && pyTruthyOpt (procObj obj0)) = true → s3.lookup bucket = some bk →
        bk.get_key (procObj obj0) none = none →
        main_geturl s3 bucket obj0 expiry = (Terminal.failJ ("Key " ++ optStr (procObj obj0) ++ " does not exist.") none, []))
    ∧ (∀ bk k, (bucket != "" && pyTruthyOpt (procObj obj0)) = true → s3.lookup bucket = some bk →
        bk.get_key (procObj obj0) none = some k →
        main_geturl s3 bucket obj0 expiry
          = (Terminal.exitJ (some "Download url:") (some true) (some (generate_url bucket k.name expiry)) (some expiry) none, [])) := by
  refine ⟨?_, ?_, ?_, ?_⟩
  · intro hcond
    simp [main_geturl, hcond]
  · intro hcond hb
    simp [main_geturl, bucket_check, hcond, hb]
  · intro bk hcond hb hk
    simp [main_geturl, bucket_check, key_check, hcond, hb, hk]
  · intro bk k hcond hb hk
    simp [main_geturl, bucket_check, key_check, get_download_url, hcond, hb, hk]

/-- Witness for C9: the success path on the concrete fixture reports
changed=True with no mutation event. -/
theorem C9_geturl_checks_and_changed_witness :
    main_geturl wS3 "b" (some "k") 600
      = (Terminal.exitJ (some "Download url:") (some true) (some (generate_url "b" "k" 600)) (some 600) none, []) := by
  exact (C9_geturl_checks_and_changed wS3 "b" (some "k") 600).2.2.2 wBucket wKey rfl rfl rfl

/-- C10: a GET invocation whose destination parameter is absent (or
empty, hence falsy) leaves the local variable `dest` unbound; once the
bucket and key checks pass, the destination path check raises
NameError — an uncaught traceback, not a clean parameter failure. -/
theorem C10_get_unbound_dest (s3 : S3) (fs : FS) (bucket : String) (obj0 version dest0 : Option String) (overwrite0 : String) (retries : Nat) (attempt : Nat → DlResult) (bk : S3Bucket) (k : S3Key)
    (hb : s3.lookup bucket = some bk)
    (hk : bk.get_key (procObj obj0) version = some k)
    (hd : destVar dest0 = none) :
    main_get s3 fs bucket obj0 version overwrite0 retries dest0 attempt
      = (Terminal.pyError "NameError: name dest is not defined", fs, []) := by
  simp [main_get, main_get_gen, bucket_check, key_check, hb, hk, hd]

/-- Witness for C10: omitting the destination on the concrete fixture
produces the NameError outcome. -/
theorem C10_get_unbound_dest_witness :
    main_get wS3 wFS "b" (some "k") none "always" 0 none wAtt
      = (Terminal.pyError "NameError: name dest is not defined", wFS, []) := by
  exact C10_get_unbound_dest wS3 wFS "b" (some "k") none none "always" 0 wAtt wBucket wKey rfl rfl rfl

end S3Module
